import Mathlib

/-!
Verification development for the MinecraftBot multi-instance process
orchestrator (`ui/script.js` and the dashboard chart utility).

The JavaScript source is shallowly embedded: the in-memory runtime state
(`runningProcesses` map plus per-bot status indicator) becomes an explicit
`SupState` record, the file system and the external process table become an
explicit `Env` record of boolean/integer observations, and each operation
(`stopBot`, `startBot`, `installBot`, `updateBotSettings`, ...) becomes a pure
function from state to state together with the log events it emits and the
number of continuation invocations it performs.
-/

set_option autoImplicit false

namespace MinecraftBot

/-- Log severity levels used by `logMessage(message, type)`. -/
inductive Level where
  | info
  | warning
  | error
  | success
deriving DecidableEq, Repr

/-- One log event: which bot the message concerns and its severity.
Batch-level messages use the empty bot name. -/
structure LogE where
  bot : String
  level : Level
deriving DecidableEq, Repr

/-- Runtime status of a worker, as shown by the status indicator class set via
`updateStatus(botName, status)`. -/
inductive Status where
  | stopped
  | installing
  | running
deriving DecidableEq, Repr

/-- The supervisor's in-memory runtime state: the `runningProcesses` tracking
map and the per-bot status indicator. -/
structure SupState where
  runningProcesses : String → Bool
  status : String → Status

/-- External-world observations the script reacts to: file-system queries and
the behaviour of spawned processes. `execOk` is whether `shell.Exec` spawns
without throwing, `exits` whether the spawned install process ever reaches a
terminal state, `exitCode` its exit code, and `killSucceeds` whether the
`taskkill` issued by `stopBot` actually terminates the bot's window. -/
structure Env where
  folderExists : String → Bool
  packageExists : String → Bool
  execOk : String → Bool
  exits : String → Bool
  exitCode : String → Int
  killSucceeds : String → Bool

/-- The fixed worker list `['MC1', 'MC2', 'MC3', 'MC4']` used by every batch
operation. -/
def botNames : List String := ["MC1", "MC2", "MC3", "MC4"]

/-- `runningProcesses[botName] = b`. -/
def setRunning (s : SupState) (w : String) (b : Bool) : SupState :=
  { s with runningProcesses := fun x => if x = w then b else s.runningProcesses x }

/-- `updateStatus(botName, status)`: set the status indicator for one bot. -/
def updateStatus (s : SupState) (w : String) (st : Status) : SupState :=
  { s with status := fun x => if x = w then st else s.status x }

/-! ## ConfigStore: global configuration (`loadConfig` / `createDefaultConfig`) -/

/-- One entry of the `accounts` object of `global_config.json`. -/
structure Account where
  username : String
  password : String
  type' : String
deriving DecidableEq, Repr

/-- The `server` block of `global_config.json`. -/
structure ServerConfig where
  ip : String
  version : String
  chatMessages : List String
  repeat' : Bool
  repeatDelay : Int
deriving DecidableEq, Repr

/-- The whole `global_config.json` document (`accounts` keeps JS object
insertion order as an association list). -/
structure GlobalConfig where
  accounts : List (String × Account)
  server : ServerConfig
deriving DecidableEq, Repr

/-- The literal `defaultConfig` object built by `createDefaultConfig`. -/
def defaultConfig : GlobalConfig :=
  { accounts :=
      [ ("MC1", { username := "Bot1", password := "", type' := "offline" })
      , ("MC2", { username := "Bot2", password := "", type' := "offline" })
      , ("MC3", { username := "Bot3", password := "", type' := "offline" })
      , ("MC4", { username := "Bot4", password := "", type' := "offline" }) ]
    server :=
      { ip := "play.pika-network.net"
        version := "1.18.1"
        chatMessages := ["/login password", "/server survival", "/home base"]
        repeat' := true
        repeatDelay := 6 } }

/-- `createDefaultConfig()`: writes the default document to
`global_config.json` unconditionally.  The file's content is modelled as an
`Option GlobalConfig` (`none` = file absent). -/
def createDefaultConfig (_fileContent : Option GlobalConfig) : Option GlobalConfig :=
  some defaultConfig

/-- `loadConfig()`: if `global_config.json` is missing, materialize and persist
the defaults; otherwise the file is left as is.  Returns the file content
after the call. -/
def loadConfig (fileContent : Option GlobalConfig) : Option GlobalConfig :=
  match fileContent with
  | none => createDefaultConfig none
  | some c => some c

/-! ## Chart smoothing (`smoothChartData` in the dashboard script) -/

/-- The EMA loop of `smoothChartData`: each output is
`previous * (1 - f) + current * f` where `previous` is the previously
*smoothed* value. -/
def smoothMiddle (f : ℚ) (prev : ℚ) : List ℚ → List ℚ
  | [] => []
  | x :: xs =>
      let s := prev * (1 - f) + x * f
      s :: smoothMiddle f s xs

/-- `smoothChartData(data, smoothingFactor)`: inputs of length ≤ 2 are
returned unchanged; otherwise the first point is kept, the interior points
`data[1..len-2]` are exponentially smoothed, and the last point is kept. -/
def smoothChartData (data : List ℚ) (smoothingFactor : ℚ) : List ℚ :=
  if data.length ≤ 2 then data
  else
    match data with
    | [] => []
    | d0 :: rest =>
        (d0 :: smoothMiddle smoothingFactor d0 rest.dropLast) ++ [rest.getLastD d0]

lemma smoothMiddle_length (f prev : ℚ) (l : List ℚ) :
    (smoothMiddle f prev l).length = l.length := by
  induction l generalizing prev with
  | nil => rfl
  | cons x xs ih => simp [smoothMiddle, ih]

/-! ## ProcessSupervisor: `stopBot`, `startBot`, `installBot` -/

/-- Result of one supervisor operation: the new runtime state and the log
events emitted, in order. -/
structure OpOut where
  state : SupState
  logs : List LogE

/-- `stopBot(botName)`: log, issue `taskkill /FI "WINDOWTITLE eq <bot> Bot*"`
fire-and-forget (its eventual success `env.killSucceeds` is never observed by
the script), then clear `runningProcesses[botName]` and set the indicator to
`stopped`. -/
def stopBot (env : Env) (w : String) (s : SupState) : OpOut :=
  let _ := env.killSucceeds w
  { state := updateStatus (setRunning s w false) w .stopped
    logs := [⟨w, .warning⟩, ⟨w, .success⟩] }

/-- Result of `startBot`: the new state, the logs, and whether a new external
process was launched by this call. -/
structure StartOut where
  state : SupState
  logs : List LogE
  launched : Bool

/-- `startBot(botName)`: error if the worker folder is missing; warn and do
nothing if `runningProcesses[botName]` is already truthy; otherwise launch the
bot window, record it as running and set the indicator to `running`. -/
def startBot (env : Env) (w : String) (s : SupState) : StartOut :=
  if env.folderExists w = false then
    { state := s, logs := [⟨w, .error⟩], launched := false }
  else if s.runningProcesses w then
    { state := s, logs := [⟨w, .warning⟩], launched := false }
  else
    { state := updateStatus (setRunning s w true) w .running
      logs := [⟨w, .info⟩, ⟨w, .success⟩]
      launched := true }

/-- Result of `installBot`: the new state once the operation has run to
quiescence, its logs, and how many times the caller-supplied continuation was
invoked. -/
structure InstallOut where
  state : SupState
  logs : List LogE
  callbackCount : Nat

/-- `installBot(botName, callback)`. Paths, in source order: worker folder
missing (error, callback); `package.json` missing (error, callback); status
set to `installing` and `shell.Exec` throws (caught: error, status `stopped`,
callback); the spawned `npm install` never reaches a terminal state (the
500 ms poll runs forever: status stays `installing`, no callback); terminal
exit code 0 (success log, status `stopped`, callback); terminal nonzero exit
code (error log, status `stopped`, callback). -/
def installBot (env : Env) (w : String) (hasCallback : Bool) (s : SupState) :
    InstallOut :=
  let cb : Nat := if hasCallback then 1 else 0
  if env.folderExists w = false then
    { state := s, logs := [⟨w, .error⟩], callbackCount := cb }
  else if env.packageExists w = false then
    { state := s, logs := [⟨w, .error⟩], callbackCount := cb }
  else if env.execOk w = false then
    { state := updateStatus s w .stopped
      logs := [⟨w, .info⟩, ⟨w, .error⟩]
      callbackCount := cb }
  else if env.exits w = false then
    { state := updateStatus s w .installing
      logs := [⟨w, .info⟩]
      callbackCount := 0 }
  else if env.exitCode w = 0 then
    { state := updateStatus s w .stopped
      logs := [⟨w, .info⟩, ⟨w, .success⟩]
      callbackCount := cb }
  else
    { state := updateStatus s w .stopped
      logs := [⟨w, .info⟩, ⟨w, .error⟩]
      callbackCount := cb }

/-- The four terminal execution paths of `installBot` enumerated by the claim:
missing folder, missing manifest, spawn exception, or terminal process exit.
The only remaining path is a spawned process that never exits. -/
def installTerminal (env : Env) (w : String) : Prop :=
  env.folderExists w = false ∨ env.packageExists w = false ∨
    env.execOk w = false ∨ env.exits w = true

instance (env : Env) (w : String) : Decidable (installTerminal env w) := by
  unfold installTerminal; infer_instance

/-! ## BatchCoordinator: `installAll`, `startAllBots`, `stopAllBots` -/

/-- Issue schedule of a staggered batch loop: worker at loop index `i` is
issued via `setTimeout(..., i * unit)`. -/
def staggeredSchedule (unit : Nat) : Nat → List String → List (String × Nat)
  | _, [] => []
  | i, w :: ws => (w, i * unit) :: staggeredSchedule unit (i + 1) ws

/-- `installAll()` schedules `installBot` for worker `i` after `i * 1000` ms. -/
def installAllSchedule : List (String × Nat) := staggeredSchedule 1000 0 botNames

/-- `startAllBots()` schedules `startBot` for worker `i` after `i * 500` ms. -/
def startAllSchedule : List (String × Nat) := staggeredSchedule 500 0 botNames

/-- `stopAllBots()` calls `stopBot` synchronously for every worker in list
order, with no `setTimeout`: every issue offset is 0. -/
def stopAllSchedule : List (String × Nat) := botNames.map (fun b => (b, 0))

/-- `Math.round((completed / botNames.length) * 100)`, the progress percent
shown by `installAll`'s completion callback. -/
def progressPercent (completed total : Nat) : Int :=
  round ((completed : ℚ) / (total : ℚ) * 100)

/-- One completion callback of `installAll`: `completed++`, recompute the
percent, and test `completed === botNames.length` (the "all complete"
signal). -/
def installAllStep (acc : Nat × List (Int × Bool)) (_w : String) :
    Nat × List (Int × Bool) :=
  let c := acc.1 + 1
  (c, acc.2 ++ [(progressPercent c botNames.length, c == botNames.length)])

/-- Run `installAll`'s aggregate completion counter over the per-worker
continuations in their arrival order: returns the final counter and, for each
arrival, the percent displayed and whether the "all complete" signal fired. -/
def installAllRun (arrivals : List String) : Nat × List (Int × Bool) :=
  arrivals.foldl installAllStep (0, [])

/-- Total number of continuation invocations `installAll` receives when each
worker's `installBot` runs to quiescence from state `s` under `env`. -/
def installAllCallbacks (env : Env) (s : SupState) : Nat :=
  botNames.foldl (fun c w => c + (installBot env w true s).callbackCount) 0

/-! ## Per-worker `settings.json` documents and `updateBotSettings` -/

/-- A JSON value; objects keep JS property insertion order as association
lists. -/
inductive JValue where
  | null
  | str : String → JValue
  | num : Int → JValue
  | bool : Bool → JValue
  | arr : List JValue → JValue
  | obj : List (String × JValue) → JValue

/-- JS property write `o[k] = v` on an object's field list: replaces the value
in place when the key exists, appends otherwise. -/
def objSet : List (String × JValue) → String → JValue → List (String × JValue)
  | [], k, v => [(k, v)]
  | (k', v') :: rest, k, v =>
      if k' = k then (k, v) :: rest else (k', v') :: objSet rest k v

/-- Property lookup on an object's field list. -/
def lookupField : List (String × JValue) → String → Option JValue
  | [], _ => none
  | (k', v) :: rest, k => if k' = k then some v else lookupField rest k

/-- JS property read `o[k]` (undefined on non-objects / missing keys). -/
def jGet (v : JValue) (k : String) : Option JValue :=
  match v with
  | .obj fields => lookupField fields k
  | _ => none

/-- Nested property read along a path of keys. -/
def jGetPath (v : JValue) : List String → Option JValue
  | [] => some v
  | k :: ks =>
      match jGet v k with
      | some v2 => jGetPath v2 ks
      | none => none

/-- The body of one `updateBotSettings` loop iteration on a parsed
`settings.json` document: assign `settings.server.ip`,
`settings.server.version`, then the three fields of
`settings.utils['chat-messages']`.  Returns `none` when one of the accessed
containers is missing or not an object (the JS assignment throws and the
iteration's `catch` logs an error instead of writing the file). -/
def updateSettingsDoc (sc : ServerConfig) (settings : JValue) : Option JValue :=
  match settings with
  | .obj fields =>
      match lookupField fields "server", lookupField fields "utils" with
      | some (.obj serverFields), some (.obj utilsFields) =>
          match lookupField utilsFields "chat-messages" with
          | some (.obj cmFields) =>
              let serverFields2 :=
                objSet (objSet serverFields "ip" (.str sc.ip)) "version"
                  (.str sc.version)
              let cmFields2 :=
                objSet
                  (objSet
                    (objSet cmFields "messages"
                      (.arr (sc.chatMessages.map JValue.str)))
                    "repeat" (.bool sc.repeat'))
                  "repeat-delay" (.num sc.repeatDelay)
              let utilsFields2 := objSet utilsFields "chat-messages" (.obj cmFields2)
              some (.obj
                (objSet (objSet fields "server" (.obj serverFields2)) "utils"
                  (.obj utilsFields2)))
          | _ => none
      | _, _ => none
  | _ => none

/-- One `updateBotSettings` loop iteration for bot `w`, over the content of
`<w>/settings.json` (`none` = file absent).  A missing file is skipped by
`continue` with NO log entry; a document on which the update throws yields an
error log and no write; otherwise the updated document is written and a
success entry logged. -/
def updateOneBot (sc : ServerConfig) (w : String) (doc : Option JValue) :
    Option JValue × List LogE :=
  match doc with
  | none => (none, [])
  | some d =>
      match updateSettingsDoc sc d with
      | none => (some d, [⟨w, .error⟩])
      | some d2 => (some d2, [⟨w, .success⟩])

/-- `updateBotSettings(serverConfig)`: iterate over `['MC1',...,'MC4']`,
updating each bot's private `settings.json`.  `fs` maps a bot name to its
settings file content; the result is the file system afterwards plus the log
events in loop order.  Each iteration touches only its own bot's file, so the
final file system is the pointwise per-bot update. -/
def updateBotSettings (sc : ServerConfig) (fs : String → Option JValue) :
    (String → Option JValue) × List LogE :=
  ( fun w => if botNames.contains w then (updateOneBot sc w (fs w)).1 else fs w
  , botNames.flatMap (fun w => (updateOneBot sc w (fs w)).2) )

/-! ## Lookup/update lemmas for JSON objects -/

lemma lookupField_objSet_self (l : List (String × JValue)) (k : String)
    (v : JValue) : lookupField (objSet l k v) k = some v := by
  induction l with
  | nil => simp [objSet, lookupField]
  | cons p rest ih =>
      obtain ⟨k', v'⟩ := p
      by_cases h : k' = k
      · simp [objSet, lookupField, h]
      · simp [objSet, lookupField, h, ih]

lemma lookupField_objSet_ne (l : List (String × JValue)) (k k2 : String)
    (v : JValue) (h : k2 ≠ k) :
    lookupField (objSet l k v) k2 = lookupField l k2 := by
  induction l with
  | nil => simp [objSet, lookupField, Ne.symm h]
  | cons p rest ih =>
      obtain ⟨k', v'⟩ := p
      by_cases hk : k' = k
      · subst hk
        simp [objSet, lookupField, Ne.symm h]
      · by_cases hk2 : k' = k2
        · simp [objSet, lookupField, hk, hk2, h]
        · simp [objSet, lookupField, hk, hk2, ih]

lemma jGetPath_single (v : JValue) (k : String) : jGetPath v [k] = jGet v k := by
  cases h : jGet v k <;> simp [jGetPath, h]

lemma jGetPath_cons (v : JValue) (k : String) (ks : List String) :
    jGetPath v (k :: ks) = (jGet v k).bind (fun v2 => jGetPath v2 ks) := by
  cases h : jGet v k <;> simp [jGetPath, h]

/-- Inversion of a successful `updateSettingsDoc`: the document was an object
with object-valued `server`, `utils` and `utils['chat-messages']` members, and
the output is the in-place field update of those three containers. -/
lemma updateSettingsDoc_inv (sc : ServerConfig) (settings out : JValue)
    (h : updateSettingsDoc sc settings = some out) :
    ∃ fields serverFields utilsFields cmFields,
      settings = .obj fields ∧
      lookupField fields "server" = some (.obj serverFields) ∧
      lookupField fields "utils" = some (.obj utilsFields) ∧
      lookupField utilsFields "chat-messages" = some (.obj cmFields) ∧
      out = .obj (objSet
        (objSet fields "server" (.obj
          (objSet (objSet serverFields "ip" (.str sc.ip)) "version"
            (.str sc.version))))
        "utils" (.obj (objSet utilsFields "chat-messages" (.obj
          (objSet
            (objSet
              (objSet cmFields "messages" (.arr (sc.chatMessages.map JValue.str)))
              "repeat" (.bool sc.repeat'))
            "repeat-delay" (.num sc.repeatDelay)))))) := by
  unfold updateSettingsDoc at h
  split at h <;> try exact Option.noConfusion h
  split at h <;> try exact Option.noConfusion h
  split at h <;> try exact Option.noConfusion h
  exact ⟨_, _, _, _, rfl, by assumption, by assumption, by assumption,
    (Option.some.inj h).symm⟩

/-! ## Concrete sample states and environments (used by witnesses) -/

/-- An environment where every query succeeds and the install process exits
with the given code. -/
def envExit (code : Int) : Env :=
  { folderExists := fun _ => true
    packageExists := fun _ => true
    execOk := fun _ => true
    exits := fun _ => true
    exitCode := fun _ => code
    killSucceeds := fun _ => true }

/-- The initial runtime state: nothing tracked running, all indicators
stopped. -/
def sInit : SupState :=
  { runningProcesses := fun _ => false, status := fun _ => Status.stopped }

/-- A runtime state in which every bot is tracked as running. -/
def sAllRunning : SupState :=
  { runningProcesses := fun _ => true, status := fun _ => Status.running }

/-- A server configuration used by witnesses. -/
def sampleServerCfg : ServerConfig :=
  { ip := "203.0.113.5"
    version := "1.20.1"
    chatMessages := ["/hello"]
    repeat' := false
    repeatDelay := 3 }

/-- A worker's private `settings.json` with extra keys beyond the propagated
ones (`server.port`, `utils.auto-eat`, `utils.chat-messages.enabled`,
top-level `customField`). -/
def sampleSettings : JValue :=
  .obj
    [ ("server", .obj
        [("ip", .str "old.example.com"), ("version", .str "1.8"),
         ("port", .num 25565)])
    , ("utils", .obj
        [ ("chat-messages", .obj
            [("messages", .arr [.str "/old"]), ("repeat", .bool true),
             ("repeat-delay", .num 6), ("enabled", .bool true)])
        , ("auto-eat", .bool true) ])
    , ("customField", .num 42) ]

/-- The result of propagating `sampleServerCfg` into `sampleSettings`. -/
def sampleOut : JValue :=
  (updateSettingsDoc sampleServerCfg sampleSettings).getD JValue.null

/-! ## Claim theorems -/

/-- C1: for every worker id `w` and every starting runtime state, `stopBot w`
results in `status w = stopped` and the worker no longer tracked in
`runningProcesses`, for every environment — in particular regardless of
whether the `taskkill` it issues succeeds (`env.killSucceeds` is arbitrary). -/
theorem stopBot_always_stops (env : Env) (w : String) (s : SupState) :
    (stopBot env w s).state.status w = Status.stopped ∧
    (stopBot env w s).state.runningProcesses w = false := by
  constructor <;> simp [stopBot, updateStatus, setRunning]

/-- C2: once the polled install process reports any terminal exit code, both
the success branch (code 0) and the failure branch (nonzero) of `installBot`
set `status w` to `stopped` and to no other state. -/
theorem installBot_terminal_exit_stops (env : Env) (w : String) (cb : Bool)
    (s : SupState) (hf : env.folderExists w = true)
    (hp : env.packageExists w = true) (he : env.execOk w = true)
    (hx : env.exits w = true) :
    (installBot env w cb s).state.status w = Status.stopped := by
  by_cases hc : env.exitCode w = 0 <;>
    simp [installBot, hf, hp, he, hx, hc, updateStatus]

/-- Witness for C2 at a concrete environment, covering exit code 0 (success
branch) and exit code 1 (failure branch). -/
theorem installBot_terminal_exit_stops_witness :
    (installBot (envExit 0) "MC1" true sInit).state.status "MC1" = Status.stopped ∧
    (installBot (envExit 1) "MC1" true sInit).state.status "MC1" = Status.stopped :=
  ⟨installBot_terminal_exit_stops (envExit 0) "MC1" true sInit rfl rfl rfl rfl,
   installBot_terminal_exit_stops (envExit 1) "MC1" true sInit rfl rfl rfl rfl⟩

/-- C4: a `startBot w` issued while `w` is already tracked as running is a
no-op producing a single warning log: the runtime state (hence the tracking
map) is unchanged, no external process is launched, and `status w` remains
`running`. -/
theorem startBot_second_call_noop (env : Env) (w : String) (s : SupState)
    (hf : env.folderExists w = true) (hr : s.runningProcesses w = true)
    (hst : s.status w = Status.running) :
    (startBot env w s).state = s ∧
    (startBot env w s).launched = false ∧
    (startBot env w s).logs = [⟨w, Level.warning⟩] ∧
    (startBot env w s).state.status w = Status.running := by
  unfold startBot
  simp [hf, hr, hst]

/-- Witness for C4: a second `startBot "MC1"` from the all-running state. -/
theorem startBot_second_call_noop_witness :
    (startBot (envExit 0) "MC1" sAllRunning).state = sAllRunning ∧
    (startBot (envExit 0) "MC1" sAllRunning).launched = false ∧
    (startBot (envExit 0) "MC1" sAllRunning).logs = [⟨"MC1", Level.warning⟩] ∧
    (startBot (envExit 0) "MC1" sAllRunning).state.status "MC1" = Status.running :=
  startBot_second_call_noop (envExit 0) "MC1" sAllRunning rfl rfl rfl

/-- C6: with `global_config.json` absent, `loadConfig` materializes exactly
the default document — 4 workers MC1..MC4, all offline with empty passwords,
server `play.pika-network.net` version `1.18.1`, 3 scripted messages, repeat
enabled with delay 6 — and persists it, so the file exists afterwards with
that content. -/
theorem loadConfig_materializes_defaults :
    loadConfig none = some defaultConfig ∧
    defaultConfig.accounts.map Prod.fst = ["MC1", "MC2", "MC3", "MC4"] ∧
    (defaultConfig.accounts.all fun e =>
      e.2.type' == "offline" && e.2.password == "") = true ∧
    defaultConfig.server.ip = "play.pika-network.net" ∧
    defaultConfig.server.version = "1.18.1" ∧
    defaultConfig.server.chatMessages.length = 3 ∧
    defaultConfig.server.repeat' = true ∧
    defaultConfig.server.repeatDelay = 6 :=
  ⟨rfl, rfl, by decide, rfl, rfl, rfl, rfl, rfl⟩

lemma getLast?_cons_of_ne_nil (d0 : ℚ) (rest : List ℚ) (h : rest ≠ []) :
    (d0 :: rest).getLast? = some (rest.getLastD d0) := by
  induction rest generalizing d0 with
  | nil => exact absurd rfl h
  | cons a t ih =>
    cases t with
    | nil => rfl
    | cons b u =>
      rw [List.getLast?_cons_cons, ih a (by simp)]
      simp [List.getLastD_cons,
        List.getLast?_eq_getLast_of_ne_nil (List.cons_ne_nil b u)]

/-- C10: `smoothChartData` returns a list of the same length whose first and
last elements equal the input's; inputs of length ≤ 2 are returned unchanged,
for any smoothing factor. -/
theorem smoothChartData_preserves_shape (data : List ℚ) (f : ℚ) :
    (smoothChartData data f).length = data.length ∧
    (smoothChartData data f).head? = data.head? ∧
    (smoothChartData data f).getLast? = data.getLast? ∧
    (data.length ≤ 2 → smoothChartData data f = data) := by
  rcases le_or_lt data.length 2 with h | h
  · simp [smoothChartData, h]
  · have h2 : ¬ data.length ≤ 2 := by omega
    rcases data with _ | ⟨d0, rest⟩
    · simp at h
    · have hlen : (d0 :: rest).length = rest.length + 1 := by simp
      have hl : 2 ≤ rest.length := by rw [hlen] at h; omega
      have hr : rest ≠ [] := by
        intro e
        rw [e] at hl
        simp at hl
      have hu : smoothChartData (d0 :: rest) f
          = (d0 :: smoothMiddle f d0 rest.dropLast) ++ [rest.getLastD d0] := by
        unfold smoothChartData
        rw [if_neg h2]
      refine ⟨?_, ?_, ?_, fun hc => absurd hc h2⟩
      · rw [hu]
        simp [smoothMiddle_length]
        omega
      · rw [hu]
        simp
      · rw [hu, List.getLast?_concat, getLast?_cons_of_ne_nil d0 rest hr]

/-- C3: propagation into one worker's private settings document changes only
`server.ip`, `server.version` and the chat-messages block
(`messages`, `repeat`, `repeat-delay`); every other key — at top level,
inside `server`, inside `utils`, and inside `utils['chat-messages']` — keeps
its prior value, while the five propagated fields take the shared server
configuration's values. -/
theorem updateSettingsDoc_frame (sc : ServerConfig) (settings out : JValue)
    (h : updateSettingsDoc sc settings = some out) :
    (∀ k, k ≠ "server" → k ≠ "utils" → jGet out k = jGet settings k) ∧
    (∀ k, k ≠ "ip" → k ≠ "version" →
        jGetPath out ["server", k] = jGetPath settings ["server", k]) ∧
    (∀ k, k ≠ "chat-messages" →
        jGetPath out ["utils", k] = jGetPath settings ["utils", k]) ∧
    (∀ k, k ≠ "messages" → k ≠ "repeat" → k ≠ "repeat-delay" →
        jGetPath out ["utils", "chat-messages", k] =
          jGetPath settings ["utils", "chat-messages", k]) ∧
    jGetPath out ["server", "ip"] = some (.str sc.ip) ∧
    jGetPath out ["server", "version"] = some (.str sc.version) ∧
    jGetPath out ["utils", "chat-messages", "messages"] =
      some (.arr (sc.chatMessages.map JValue.str)) ∧
    jGetPath out ["utils", "chat-messages", "repeat"] = some (.bool sc.repeat') ∧
    jGetPath out ["utils", "chat-messages", "repeat-delay"] =
      some (.num sc.repeatDelay) := by
  obtain ⟨fields, serverFields, utilsFields, cmFields, hset, h1, h2, h3, hout⟩ :=
    updateSettingsDoc_inv sc settings out h
  subst hset hout
  have hserver : jGet (JValue.obj (objSet
      (objSet fields "server" (.obj
        (objSet (objSet serverFields "ip" (.str sc.ip)) "version"
          (.str sc.version))))
      "utils" (.obj (objSet utilsFields "chat-messages" (.obj
        (objSet
          (objSet
            (objSet cmFields "messages" (.arr (sc.chatMessages.map JValue.str)))
            "repeat" (.bool sc.repeat'))
          "repeat-delay" (.num sc.repeatDelay))))))) "server"
      = some (.obj (objSet (objSet serverFields "ip" (.str sc.ip)) "version"
          (.str sc.version))) := by
    show lookupField _ "server" = _
    rw [lookupField_objSet_ne _ _ _ _ (by decide), lookupField_objSet_self]
  have hutils : jGet (JValue.obj (objSet
      (objSet fields "server" (.obj
        (objSet (objSet serverFields "ip" (.str sc.ip)) "version"
          (.str sc.version))))
      "utils" (.obj (objSet utilsFields "chat-messages" (.obj
        (objSet
          (objSet
            (objSet cmFields "messages" (.arr (sc.chatMessages.map JValue.str)))
            "repeat" (.bool sc.repeat'))
          "repeat-delay" (.num sc.repeatDelay))))))) "utils"
      = some (.obj (objSet utilsFields "chat-messages" (.obj
          (objSet
            (objSet
              (objSet cmFields "messages" (.arr (sc.chatMessages.map JValue.str)))
              "repeat" (.bool sc.repeat'))
            "repeat-delay" (.num sc.repeatDelay))))) := by
    show lookupField _ "utils" = _
    rw [lookupField_objSet_self]
  have hcm : jGet (JValue.obj (objSet utilsFields "chat-messages" (.obj
        (objSet
          (objSet
            (objSet cmFields "messages" (.arr (sc.chatMessages.map JValue.str)))
            "repeat" (.bool sc.repeat'))
          "repeat-delay" (.num sc.repeatDelay))))) "chat-messages"
      = some (.obj (objSet
          (objSet
            (objSet cmFields "messages" (.arr (sc.chatMessages.map JValue.str)))
            "repeat" (.bool sc.repeat'))
          "repeat-delay" (.num sc.repeatDelay))) := by
    show lookupField _ "chat-messages" = _
    rw [lookupField_objSet_self]
  refine ⟨?_, ?_, ?_, ?_, ?_, ?_, ?_, ?_, ?_⟩
  · intro k hk1 hk2
    show lookupField _ k = lookupField fields k
    rw [lookupField_objSet_ne _ _ _ _ hk2, lookupField_objSet_ne _ _ _ _ hk1]
  · intro k hk1 hk2
    rw [jGetPath_cons, jGetPath_cons, hserver]
    show _ = Option.bind (lookupField fields "server") _
    rw [h1]
    simp only [Option.some_bind, jGetPath_single]
    show lookupField _ k = lookupField serverFields k
    rw [lookupField_objSet_ne _ _ _ _ hk2, lookupField_objSet_ne _ _ _ _ hk1]
  · intro k hk
    rw [jGetPath_cons, jGetPath_cons, hutils]
    show _ = Option.bind (lookupField fields "utils") _
    rw [h2]
    simp only [Option.some_bind, jGetPath_single]
    show lookupField _ k = lookupField utilsFields k
    rw [lookupField_objSet_ne _ _ _ _ hk]
  · intro k hk1 hk2 hk3
    rw [jGetPath_cons, jGetPath_cons, hutils]
    show _ = Option.bind (lookupField fields "utils") _
    rw [h2]
    simp only [Option.some_bind]
    rw [jGetPath_cons, jGetPath_cons, hcm]
    show _ = Option.bind (lookupField utilsFields "chat-messages") _
    rw [h3]
    simp only [Option.some_bind, jGetPath_single]
    show lookupField _ k = lookupField cmFields k
    rw [lookupField_objSet_ne _ _ _ _ hk3, lookupField_objSet_ne _ _ _ _ hk2,
      lookupField_objSet_ne _ _ _ _ hk1]
  · rw [jGetPath_cons, hserver]
    simp only [Option.some_bind, jGetPath_single]
    show lookupField _ "ip" = _
    rw [lookupField_objSet_ne _ _ _ _ (by decide), lookupField_objSet_self]
  · rw [jGetPath_cons, hserver]
    simp only [Option.some_bind, jGetPath_single]
    show lookupField _ "version" = _
    rw [lookupField_objSet_self]
  · rw [jGetPath_cons, hutils]
    simp only [Option.some_bind]
    rw [jGetPath_cons, hcm]
    simp only [Option.some_bind, jGetPath_single]
    show lookupField _ "messages" = _
    rw [lookupField_objSet_ne _ _ _ _ (by decide),
      lookupField_objSet_ne _ _ _ _ (by decide), lookupField_objSet_self]
  · rw [jGetPath_cons, hutils]
    simp only [Option.some_bind]
    rw [jGetPath_cons, hcm]
    simp only [Option.some_bind, jGetPath_single]
    show lookupField _ "repeat" = _
    rw [lookupField_objSet_ne _ _ _ _ (by decide), lookupField_objSet_self]
  · rw [jGetPath_cons, hutils]
    simp only [Option.some_bind]
    rw [jGetPath_cons, hcm]
    simp only [Option.some_bind, jGetPath_single]
    show lookupField _ "repeat-delay" = _
    rw [lookupField_objSet_self]

/-- Witness for C3: propagating `sampleServerCfg` into `sampleSettings` keeps
the extra keys `customField` (still 42) and `server.port`, and writes the new
`server.ip`. -/
theorem updateSettingsDoc_frame_witness :
    jGet sampleOut "customField" = some (.num 42) ∧
    jGetPath sampleOut ["server", "port"] = some (.num 25565) ∧
    jGetPath sampleOut ["utils", "chat-messages", "enabled"] = some (.bool true) ∧
    jGetPath sampleOut ["server", "ip"] = some (.str "203.0.113.5") := by
  have h := updateSettingsDoc_frame sampleServerCfg sampleSettings sampleOut rfl
  exact ⟨(h.1 "customField" (by decide) (by decide)).trans rfl,
         ((h.2.1 "port" (by decide) (by decide)).trans rfl),
         ((h.2.2.2.1 "enabled" (by decide) (by decide) (by decide)).trans rfl),
         h.2.2.2.2.1⟩

lemma updateOneBot_logs_bot (sc : ServerConfig) (w2 : String)
    (d : Option JValue) : ∀ e ∈ (updateOneBot sc w2 d).2, e.bot = w2 := by
  intro e he
  rcases d with _ | d
  · simp [updateOneBot] at he
  · rcases hu : updateSettingsDoc sc d with _ | d2 <;>
      simp [updateOneBot, hu] at he <;> simp [he]

/-- A worker file system where MC1's private settings document is missing and
the other workers have `sampleSettings`. -/
def fsMissingMC1 : String → Option JValue :=
  fun w => if w = "MC1" then none else some sampleSettings

/-- Counterexample to C7 as stated: with MC1's settings document missing, the
propagation loop `continue`s without calling `logMessage`, so the emitted log
contains no entry for MC1 at all — the skip is not logged.  The other three
workers are still updated (each gets a success entry). -/
theorem updateBotSettings_no_skip_log :
    fsMissingMC1 "MC1" = none ∧
    (updateBotSettings sampleServerCfg fsMissingMC1).2 =
      [⟨"MC2", Level.success⟩, ⟨"MC3", Level.success⟩, ⟨"MC4", Level.success⟩] ∧
    (updateBotSettings sampleServerCfg fsMissingMC1).2.filter
      (fun e => e.bot == "MC1") = [] :=
  ⟨rfl, rfl, rfl⟩

/-- C7 (amended): a worker whose private settings document is missing is
skipped silently — its document stays absent and NO log entry is emitted for
it — the loop continues with the remaining workers, and the miss is non-fatal:
every other worker whose document is present and updatable is still updated. -/
theorem updateBotSettings_missing_skipped (sc : ServerConfig)
    (fs : String → Option JValue) (w : String) (hw : fs w = none) :
    (updateBotSettings sc fs).1 w = none ∧
    (updateBotSettings sc fs).2.filter (fun e => e.bot == w) = [] ∧
    (∀ w2 d out2, w2 ∈ botNames → fs w2 = some d →
        updateSettingsDoc sc d = some out2 →
        (updateBotSettings sc fs).1 w2 = some out2) := by
  refine ⟨?_, ?_, ?_⟩
  · by_cases hm : botNames.contains w <;>
      simp [updateBotSettings, hm, updateOneBot, hw]
  · rw [List.filter_eq_nil_iff]
    intro e he
    obtain ⟨w2, _, he2⟩ := List.mem_flatMap.mp he
    have hb := updateOneBot_logs_bot sc w2 (fs w2) e he2
    by_cases hww : w2 = w
    · subst hww
      rw [hw] at he2
      simp [updateOneBot] at he2
    · simp [hb, hww]
  · intro w2 d out2 hmem hd hupd
    have hc : botNames.contains w2 = true := List.elem_eq_true_of_mem hmem
    simp [updateBotSettings, hc, hmem, updateOneBot, hd, hupd]

/-- Witness for C7 (amended): MC1 missing, MC2 still updated to the
propagated document. -/
theorem updateBotSettings_missing_skipped_witness :
    (updateBotSettings sampleServerCfg fsMissingMC1).1 "MC1" = none ∧
    (updateBotSettings sampleServerCfg fsMissingMC1).2.filter
      (fun e => e.bot == "MC1") = [] ∧
    (updateBotSettings sampleServerCfg fsMissingMC1).1 "MC2" = some sampleOut :=
  ⟨(updateBotSettings_missing_skipped sampleServerCfg fsMissingMC1 "MC1" rfl).1,
   (updateBotSettings_missing_skipped sampleServerCfg fsMissingMC1 "MC1" rfl).2.1,
   (updateBotSettings_missing_skipped sampleServerCfg fsMissingMC1 "MC1" rfl).2.2
     "MC2" sampleSettings sampleOut (by simp [botNames]) rfl rfl⟩

/-- C5: `installAll` schedules worker `i`'s install `i * 1000` ms after
worker 0's (so no earlier than `i` stagger units), and its aggregate
completion signal is count-based: for completions arriving in any permutation
of the worker list, the counter reaches 4 and the "all complete" signal fires
exactly at the fourth continuation and not before. -/
theorem installAll_stagger_count_based :
    (∀ i, i < botNames.length →
        (installAllSchedule.map Prod.snd).getD i 0 =
          (installAllSchedule.map Prod.snd).getD 0 0 + i * 1000) ∧
    (∀ arrivals, List.Perm arrivals botNames →
        (installAllRun arrivals).1 = botNames.length ∧
        (installAllRun arrivals).2.map Prod.snd = [false, false, false, true]) := by
  constructor
  · intro i hi
    have hb : i < 4 := by simpa [botNames] using hi
    interval_cases i <;> decide
  · intro arrivals hp
    have hlen : arrivals.length = 4 := by
      simpa [botNames] using hp.length_eq
    rcases arrivals with _ | ⟨a, _ | ⟨b, _ | ⟨c, _ | ⟨d, _ | ⟨e, t⟩⟩⟩⟩⟩ <;>
      simp at hlen
    exact ⟨rfl, rfl⟩

/-- Witness for C5: the stagger bound at worker 1 and a completion order that
is the exact reverse of the issue order. -/
theorem installAll_stagger_count_based_witness :
    (installAllSchedule.map Prod.snd).getD 1 0 =
      (installAllSchedule.map Prod.snd).getD 0 0 + 1 * 1000 ∧
    (installAllRun ["MC4", "MC3", "MC2", "MC1"]).1 = botNames.length ∧
    (installAllRun ["MC4", "MC3", "MC2", "MC1"]).2.map Prod.snd =
      [false, false, false, true] :=
  ⟨installAll_stagger_count_based.1 1 (by decide),
   (installAll_stagger_count_based.2 ["MC4", "MC3", "MC2", "MC1"] (by decide)).1,
   (installAll_stagger_count_based.2 ["MC4", "MC3", "MC2", "MC1"] (by decide)).2⟩

/-- C8: `startAllBots` issues worker `i`'s start exactly `i * 500` ms after
worker 0's and `installAll` issues worker `i`'s install exactly `i * 1000` ms
after worker 0's — the same `delay = index * stagger` pattern — while
`stopAllBots` issues every stop with zero offset, in worker-index order. -/
theorem batch_schedules_stagger :
    (∀ i, i < botNames.length →
        (startAllSchedule.map Prod.snd).getD i 0 =
          (startAllSchedule.map Prod.snd).getD 0 0 + i * 500) ∧
    (∀ i, i < botNames.length →
        (installAllSchedule.map Prod.snd).getD i 0 =
          (installAllSchedule.map Prod.snd).getD 0 0 + i * 1000) ∧
    stopAllSchedule.map Prod.snd = [0, 0, 0, 0] ∧
    stopAllSchedule.map Prod.fst = botNames := by
  refine ⟨?_, ?_, rfl, rfl⟩ <;>
    (intro i hi
     have hb : i < 4 := by simpa [botNames] using hi
     interval_cases i <;> decide)

/-- Witness for C8 at worker index 3. -/
theorem batch_schedules_stagger_witness :
    (startAllSchedule.map Prod.snd).getD 3 0 =
      (startAllSchedule.map Prod.snd).getD 0 0 + 3 * 500 ∧
    (installAllSchedule.map Prod.snd).getD 3 0 =
      (installAllSchedule.map Prod.snd).getD 0 0 + 3 * 1000 ∧
    stopAllSchedule.map Prod.snd = [0, 0, 0, 0] ∧
    stopAllSchedule.map Prod.fst = botNames :=
  ⟨batch_schedules_stagger.1 3 (by decide),
   batch_schedules_stagger.2.1 3 (by decide),
   batch_schedules_stagger.2.2.1,
   batch_schedules_stagger.2.2.2⟩

lemma installBot_cb_one (env : Env) (w : String) (s : SupState)
    (ht : installTerminal env w) :
    (installBot env w true s).callbackCount = 1 := by
  by_cases h1 : env.folderExists w = false
  · simp [installBot, h1]
  · have h1' : env.folderExists w = true := by simpa using h1
    by_cases h2 : env.packageExists w = false
    · simp [installBot, h1', h2]
    · have h2' : env.packageExists w = true := by simpa using h2
      by_cases h3 : env.execOk w = false
      · simp [installBot, h1', h2', h3]
      · have h3' : env.execOk w = true := by simpa using h3
        have h4 : env.exits w = true := by
          rcases ht with h | h | h | h
          · rw [h1'] at h; cases h
          · rw [h2'] at h; cases h
          · rw [h3'] at h; cases h
          · exact h
        by_cases hc : env.exitCode w = 0 <;>
          simp [installBot, h1', h2', h3', h4, hc]

/-- C9: on each of `installBot`'s terminal paths (missing folder, missing
`package.json`, spawn exception, terminal exit with any code) the supplied
continuation is invoked exactly once; hence when every worker's install is
terminal, `installAll`'s completion counter reaches the worker count and the
progress percent reaches 100. -/
theorem installBot_callback_exactly_once :
    (∀ (env : Env) (w : String) (s : SupState), installTerminal env w →
        (installBot env w true s).callbackCount = 1) ∧
    (∀ (env : Env) (s : SupState), (∀ w, w ∈ botNames → installTerminal env w) →
        installAllCallbacks env s = botNames.length ∧
        progressPercent (installAllCallbacks env s) botNames.length = 100) := by
  refine ⟨installBot_cb_one, ?_⟩
  intro env s hterm
  have e1 : (installBot env "MC1" true s).callbackCount = 1 :=
    installBot_cb_one env "MC1" s (hterm "MC1" (by simp [botNames]))
  have e2 : (installBot env "MC2" true s).callbackCount = 1 :=
    installBot_cb_one env "MC2" s (hterm "MC2" (by simp [botNames]))
  have e3 : (installBot env "MC3" true s).callbackCount = 1 :=
    installBot_cb_one env "MC3" s (hterm "MC3" (by simp [botNames]))
  have e4 : (installBot env "MC4" true s).callbackCount = 1 :=
    installBot_cb_one env "MC4" s (hterm "MC4" (by simp [botNames]))
  have hcount : installAllCallbacks env s = botNames.length := by
    simp [installAllCallbacks, botNames, e1, e2, e3, e4]
  refine ⟨hcount, ?_⟩
  rw [hcount]
  show progressPercent 4 4 = 100
  have h100 : ((4 : ℕ) : ℚ) / ((4 : ℕ) : ℚ) * 100 = 100 := by norm_num
  unfold progressPercent
  rw [h100]
  simp

/-- Witness for C9: an environment where every spawn fails terminally with
exit code 1. -/
theorem installBot_callback_exactly_once_witness :
    (installBot (envExit 1) "MC1" true sInit).callbackCount = 1 ∧
    installAllCallbacks (envExit 1) sInit = botNames.length ∧
    progressPercent (installAllCallbacks (envExit 1) sInit) botNames.length = 100 :=
  ⟨installBot_callback_exactly_once.1 (envExit 1) "MC1" sInit
      (Or.inr (Or.inr (Or.inr rfl))),
   (installBot_callback_exactly_once.2 (envExit 1) sInit
      (fun _ _ => Or.inr (Or.inr (Or.inr rfl)))).1,
   (installBot_callback_exactly_once.2 (envExit 1) sInit
      (fun _ _ => Or.inr (Or.inr (Or.inr rfl)))).2⟩

/-- Witness for C10 at concrete inputs: a length-2 input is returned
unchanged, and a length-4 input keeps its length, first and last elements. -/
theorem smoothChartData_preserves_shape_witness :
    smoothChartData [1, 2] (1/2) = [1, 2] ∧
    (smoothChartData [1, 2, 3, 4] (1/2)).length = 4 ∧
    (smoothChartData [1, 2, 3, 4] (1/2)).head? = some 1 ∧
    (smoothChartData [1, 2, 3, 4] (1/2)).getLast? = some 4 :=
  ⟨(smoothChartData_preserves_shape [1, 2] (1/2)).2.2.2 (by decide),
   (smoothChartData_preserves_shape [1, 2, 3, 4] (1/2)).1,
   (smoothChartData_preserves_shape [1, 2, 3, 4] (1/2)).2.1,
   (smoothChartData_preserves_shape [1, 2, 3, 4] (1/2)).2.2.1⟩

end MinecraftBot
